import Mathlib

/-!
Verification of the plate-pickup demo orchestration script
(src/src/examples/demo_plate_pickup.py).

The script drives an external motion controller through a fixed 7-step
plate-pickup sequence.  We embed the script shallowly: the external
controller (prompts, movement calls, construction and initialization of
the controller object) is modelled by an environment `Env` that fixes the
outcome of each external interaction, and the script is translated into
pure functions that return the boolean result the Python functions return
together with the ordered trace of controller calls issued.  Python
exceptions are modelled by the `Outcome` type: `ok` is a normal return,
`interrupt` is `KeyboardInterrupt`, `error` is any other `Exception`.
Speeds are modelled as rationals.
-/

namespace PlateDemo

/-- Result of an external interaction: normal return, `KeyboardInterrupt`,
or any other `Exception`. -/
inductive Outcome (α : Type) where
  | ok : α → Outcome α
  | interrupt : Outcome α
  | error : Outcome α
deriving DecidableEq

/-- Observable events of one run: controller lifecycle calls, movement
primitives, gripper calls, the emergency stop, and the fixed pause the
step runner makes after a successful movement (`time.sleep(1)`). -/
inductive Event where
  | construct : Event
  | initCall : Event
  | disconnect : Event
  | stopMotion : Event
  | moveNamed : String → ℚ → Event
  | moveTrack : String → ℚ → Event
  | openGripper : Event
  | closeGripper : Event
  | sleep : Nat → Event
deriving DecidableEq

/-- One entry of the speed-configuration dictionary: the Python dict
optionally carries a joint_speed key, optionally a track_speed key, and a
description string. -/
structure StepSpeed where
  joint_speed : Option ℚ := none
  track_speed : Option ℚ := none
  description : String := ""
deriving DecidableEq

/-- The speed-configuration dictionary, as an insertion-ordered
association list, like a Python dict. -/
abbrev SpeedDict := List (String × StepSpeed)

/-- `get_speed_config` from the source: the default per-step speed table. -/
def get_speed_config : SpeedDict :=
  [("robot_home",
     { joint_speed := some 20, description := "Robot joint homing speed with gripper open" }),
   ("move_to_local_1",
     { track_speed := some 150, description := "Linear track movement to Local_1 position" }),
   ("deck_high",
     { joint_speed := some 15, description := "Joint movement to deck high position" }),
   ("deck_low",
     { joint_speed := some 8, description := "Slow descent to plate pickup level" }),
   ("plate_pickup",
     { description := "Close gripper to pick up well plate" }),
   ("deck_high_return",
     { joint_speed := some 10, description := "Slow lift to safe height with plate" }),
   ("final_home",
     { joint_speed := some 15, description := "Return to home position with plate" })]

/-- The scaling `main` applies to one config entry: `config.copy()` with
each speed key that is present multiplied by the multiplier. -/
def scaleConfig (m : ℚ) (config : StepSpeed) : StepSpeed :=
  { config with
    joint_speed := config.joint_speed.map (fun v => v * m),
    track_speed := config.track_speed.map (fun v => v * m) }

/-- The loop in `main` building `custom_speeds`: every entry of the base
table, scaled. -/
def scaleSpeeds (m : ℚ) (base : SpeedDict) : SpeedDict :=
  base.map (fun p => (p.1, scaleConfig m p.2))

/-- Python `dict.update`: keys already present are overwritten in place
(keeping insertion order), genuinely new keys are appended. -/
def dictUpdate (d new : SpeedDict) : SpeedDict :=
  (d.map (fun p =>
    match new.find? (fun q => q.1 == p.1) with
    | some q => (p.1, q.2)
    | none => p))
  ++ new.filter (fun q => !(d.any (fun p => p.1 == q.1)))

/-- Python dict lookup `sp[k]`; the fallback entry is never reached on the
dictionaries the script actually builds (all seven keys are present). -/
def dictFind (sp : SpeedDict) (k : String) : StepSpeed :=
  ((sp.find? (fun p => p.1 == k)).map Prod.snd).getD {}

/-- Test-double environment fixing the outcome of every external
interaction of one run: controller construction and `initialize()`, the
keys of `position_config['positions']`, whether the track component is
enabled, the outcome of each `input()` prompt (index 0 is the start
prompt, index i is the prompt before step i), the outcome of the primary
controller call of each step, and the outcome of the `open_gripper()`
call embedded in step 1. -/
structure Env where
  constructRes : Outcome Unit
  initRes : Outcome Bool
  positions : List String
  trackEnabled : Bool
  prompt : Nat → Outcome Unit
  act : Nat → Outcome Bool
  openGripperRes : Outcome Bool

/-- Parsed CLI arguments (argparse gives speed_multiplier default 1.0). -/
structure Args where
  simulate : Bool
  real : Bool
  auto : Bool
  slow : Bool
  fast : Bool
  speed_multiplier : ℚ

/-- The `try` body of `move_with_confirmation` around `movement_func()`:
on `True` print, sleep one second and return `True`; on `False` return
`False`; on `KeyboardInterrupt` call `stop_motion()` and return `False`;
any other exception propagates.  The action is given by the calls it
issues when invoked and its outcome. -/
def runAction (action : List Event × Outcome Bool) : Outcome Bool × List Event :=
  match action.2 with
  | .ok true => (.ok true, action.1 ++ [.sleep 1])
  | .ok false => (.ok false, action.1)
  | .interrupt => (.ok false, action.1 ++ [.stopMotion])
  | .error => (.error, action.1)

/-- `move_with_confirmation` from the source.  When not auto-confirming,
the prompt runs first: `KeyboardInterrupt` there calls `stop_motion()`
and returns `False` without running the action; any other exception at
the prompt propagates (the inner `try` catches only `KeyboardInterrupt`).
The returned outcome is `.ok b` for a normal boolean return and `.error`
for a propagating exception. -/
def move_with_confirmation (auto_confirm : Bool) (promptRes : Outcome Unit)
    (action : List Event × Outcome Bool) : Outcome Bool × List Event :=
  if auto_confirm then runAction action
  else
    match promptRes with
    | .ok _ => runAction action
    | .interrupt => (.ok false, [.stopMotion])
    | .error => (.error, [])

/-- The movement action of step i of the demo: the calls it issues and
its outcome.  Step 1 is `move_home_and_open_gripper`: it calls
`move_to_named_location('robot_home')` and, exactly when that returned
`True`, also calls `open_gripper()`, then returns the move result; an
exception from either call propagates.  Steps 2-7 are single controller
calls.  Speeds are looked up in the effective speed dictionary as in the
source. -/
def stepAction (env : Env) (sp : SpeedDict) (i : Nat) : List Event × Outcome Bool :=
  if i = 1 then
    let js := (dictFind sp "robot_home").joint_speed.getD 0
    match env.act 1, env.openGripperRes with
    | .ok true, .ok _ => ([.moveNamed "robot_home" js, .openGripper], .ok true)
    | .ok true, .interrupt => ([.moveNamed "robot_home" js, .openGripper], .interrupt)
    | .ok true, .error => ([.moveNamed "robot_home" js, .openGripper], .error)
    | .ok false, _ => ([.moveNamed "robot_home" js], .ok false)
    | .interrupt, _ => ([.moveNamed "robot_home" js], .interrupt)
    | .error, _ => ([.moveNamed "robot_home" js], .error)
  else if i = 2 then
    ([.moveTrack "Local_1" ((dictFind sp "move_to_local_1").track_speed.getD 0)], env.act 2)
  else if i = 3 then
    ([.moveNamed "deck_high" ((dictFind sp "deck_high").joint_speed.getD 0)], env.act 3)
  else if i = 4 then
    ([.moveNamed "deck_low" ((dictFind sp "deck_low").joint_speed.getD 0)], env.act 4)
  else if i = 5 then
    ([.closeGripper], env.act 5)
  else if i = 6 then
    ([.moveNamed "deck_high" ((dictFind sp "deck_high_return").joint_speed.getD 0)], env.act 6)
  else if i = 7 then
    ([.moveNamed "robot_home" ((dictFind sp "final_home").joint_speed.getD 0)], env.act 7)
  else ([], .ok false)

/-- The step identifiers of the fixed 7-step plan, in order. -/
def stepIds : List Nat := [1, 2, 3, 4, 5, 6, 7]

/-- The list-walk over the plan inside `demo_plate_pickup`: each step runs
through `move_with_confirmation`; a `False` return stops the walk with
overall failure; a propagating exception is caught by the enclosing
`except` clauses of `demo_plate_pickup`, which call `stop_motion()` and
return `False`. -/
def runSteps (env : Env) (auto : Bool) (sp : SpeedDict) : List Nat → Bool × List Event
  | [] => (true, [])
  | i :: rest =>
    match move_with_confirmation auto (env.prompt i) (stepAction env sp i) with
    | (.ok true, tr) => ((runSteps env auto sp rest).1, tr ++ (runSteps env auto sp rest).2)
    | (.ok false, tr) => (false, tr)
    | (.interrupt, tr) => (false, tr ++ [.stopMotion])
    | (.error, tr) => (false, tr ++ [.stopMotion])

/-- The required-position names checked by the preflight validation in
`demo_plate_pickup` (note: the track destination Local_1 is not in this
list; the source defers its validation to the movement function). -/
def required_positions : List String := ["robot_home", "deck_high", "deck_low"]

/-- The effective speed dictionary of the run: the default table, updated
by `custom_speeds` when `main` passed one (`if custom_speeds:
speeds.update(custom_speeds)`). -/
def effective_speeds (custom_speeds : Option SpeedDict) : SpeedDict :=
  match custom_speeds with
  | some cs => dictUpdate get_speed_config cs
  | none => get_speed_config

/-- The part of `demo_plate_pickup` after the start prompt: the preflight
validation (required positions present, track component enabled), then
the 7-step walk. -/
def demo_body (env : Env) (auto : Bool) (sp : SpeedDict) : Bool × List Event :=
  if required_positions.all (fun p => env.positions.contains p) = true then
    if env.trackEnabled = true then runSteps env auto sp stepIds
    else (false, [])
  else (false, [])

/-- `demo_plate_pickup` from the source: build the effective speed table,
run the start prompt when not auto-confirming (`KeyboardInterrupt` there
is caught in place, calls `stop_motion()` and returns `False`; any other
exception reaches the functions own `except Exception` handler, which
also calls `stop_motion()` and returns `False`), then the preflight
validation and the step walk. -/
def demo_plate_pickup (env : Env) (auto_confirm : Bool)
    (custom_speeds : Option SpeedDict) : Bool × List Event :=
  if auto_confirm then demo_body env auto_confirm (effective_speeds custom_speeds)
  else
    match env.prompt 0 with
    | .ok _ => demo_body env auto_confirm (effective_speeds custom_speeds)
    | .interrupt => (false, [.stopMotion])
    | .error => (false, [.stopMotion])

/-- The speed-multiplier resolution in `main`: `--slow` gives 0.5,
`--fast` gives 2.0, otherwise the explicit `--speed-multiplier` value
(the source distinguishes the value 1.0 but both branches yield it). -/
def resolved_multiplier (args : Args) : ℚ :=
  if args.slow = true then 1/2
  else if args.fast = true then 2
  else if args.speed_multiplier ≠ 1 then args.speed_multiplier
  else 1

/-- The `custom_speeds` dictionary `main` builds: only when the resolved
multiplier differs from 1.0, every entry of the default table scaled. -/
def main_custom_speeds (args : Args) : Option SpeedDict :=
  if resolved_multiplier args ≠ 1 then
    some (scaleSpeeds (resolved_multiplier args) get_speed_config)
  else none

/-- How `main` exits: `sys.exit(1)` on conflicting or missing mode/speed
flags; an exception caught by its top-level handlers; the early `return`
when `initialize()` returns `False`; or a completed run carrying the
boolean the demo returned. -/
inductive MainOutcome where
  | usageError : MainOutcome
  | fault : MainOutcome
  | initFailed : MainOutcome
  | ran : Bool → MainOutcome
deriving DecidableEq

/-- `main` from the source: flag validation (each failure exits before
any controller object is constructed), then construction (a raising
constructor leaves no `controller` in `locals()`, so neither
`stop_motion()` nor `disconnect()` runs), `initialize()` (a raise there
hits the top-level handlers, which call `stop_motion()`, and the
`finally` block then calls `disconnect()`; a `False` return hits the
early `return`, and `finally` calls `disconnect()`), then the demo, with
`disconnect()` in `finally`. -/
def main (args : Args) (env : Env) : MainOutcome × List Event :=
  if (args.simulate && args.real) = true then (.usageError, [])
  else if (!args.simulate && !args.real) = true then (.usageError, [])
  else if (args.slow && args.fast) = true then (.usageError, [])
  else
    match env.constructRes with
    | .interrupt => (.fault, [.construct])
    | .error => (.fault, [.construct])
    | .ok _ =>
      match env.initRes with
      | .ok true =>
        let r := demo_plate_pickup env args.auto (main_custom_speeds args)
        (.ran r.1, [.construct, .initCall] ++ r.2 ++ [.disconnect])
      | .ok false => (.initFailed, [.construct, .initCall, .disconnect])
      | .interrupt => (.fault, [.construct, .initCall, .stopMotion, .disconnect])
      | .error => (.fault, [.construct, .initCall, .stopMotion, .disconnect])

/-- A fully succeeding test double: construction and `initialize()`
succeed, all required positions plus Local_1 are configured, the track is
enabled, every prompt is acknowledged, every movement call returns
`True`. -/
def allOkEnv : Env :=
  { constructRes := .ok ()
    initRes := .ok true
    positions := ["robot_home", "deck_high", "deck_low", "Local_1"]
    trackEnabled := true
    prompt := fun _ => .ok ()
    act := fun _ => .ok true
    openGripperRes := .ok true }

/-- CLI arguments `--simulate --auto`. -/
def simAutoArgs : Args :=
  { simulate := true, real := false, auto := true, slow := false, fast := false
    speed_multiplier := 1 }

/-- CLI arguments `--simulate --auto --fast`. -/
def simAutoFastArgs : Args :=
  { simulate := true, real := false, auto := true, slow := false, fast := true
    speed_multiplier := 1 }

/-- An environment whose position table lacks robot_home. -/
def noHomeEnv : Env := { allOkEnv with positions := ["deck_high", "deck_low"] }

/-- An environment whose position table has the three checked names but
not the track destination Local_1. -/
def noLocal1Env : Env :=
  { allOkEnv with positions := ["robot_home", "deck_high", "deck_low"] }

/-- An environment whose linear-track component is disabled. -/
def noTrackEnv : Env := { allOkEnv with trackEnabled := false }

/-- An environment whose controller constructor raises. -/
def constructFailEnv : Env := { allOkEnv with constructRes := .error }

/-- A test double that reports boolean failure on step 4 and success on
every other movement call. -/
def step4FailEnv : Env :=
  { allOkEnv with act := fun i => if i = 4 then .ok false else .ok true }

/-- A run where the operator cancels at the confirmation prompt of
step 1 and acknowledges every other prompt. -/
def interruptAtStep1Env : Env :=
  { allOkEnv with prompt := fun j => if j = 1 then .interrupt else .ok () }

/-- The trace one successful step leaves: the calls of its movement
action followed by the fixed pause. -/
def stepTrace (env : Env) (sp : SpeedDict) (j : Nat) : List Event :=
  (stepAction env sp j).1 ++ [.sleep 1]

/-- The trace of the successfully completed steps that precede step k. -/
def stepsBefore (env : Env) (sp : SpeedDict) (k : Nat) : List Event :=
  ((stepIds.filter (fun j => j < k)).map (stepTrace env sp)).flatten

/-- The step runner never issues a disconnect call. -/
theorem mwc_no_disconnect (auto : Bool) (promptRes : Outcome Unit)
    (action : List Event × Outcome Bool)
    (h : Event.disconnect ∉ action.1) :
    Event.disconnect ∉ (move_with_confirmation auto promptRes action).2 := by
  obtain ⟨tr, out⟩ := action
  cases out with
  | ok b =>
    cases b <;> cases auto <;> cases promptRes <;>
      simp_all [move_with_confirmation, runAction]
  | interrupt =>
    cases auto <;> cases promptRes <;> simp_all [move_with_confirmation, runAction]
  | error =>
    cases auto <;> cases promptRes <;> simp_all [move_with_confirmation, runAction]

/-- The step walk never issues a disconnect call when no step action
does. -/
theorem runSteps_no_disconnect (env : Env) (auto : Bool) (sp : SpeedDict) :
    ∀ l : List Nat, (∀ i ∈ l, Event.disconnect ∉ (stepAction env sp i).1) →
      Event.disconnect ∉ (runSteps env auto sp l).2 := by
  intro l
  induction l with
  | nil => intro _; simp [runSteps]
  | cons i rest ih =>
    intro h
    have hi := mwc_no_disconnect auto (env.prompt i) (stepAction env sp i) (h i (by simp))
    have hr := ih (fun j hj => h j (by simp [hj]))
    rw [runSteps]
    rcases hm : move_with_confirmation auto (env.prompt i) (stepAction env sp i) with ⟨out, tr⟩
    rw [hm] at hi
    cases out with
    | ok b => cases b <;> simp_all
    | interrupt => simp_all
    | error => simp_all

/-- No step action of the plan issues a disconnect call. -/
theorem stepAction_no_disconnect (env : Env) (sp : SpeedDict) :
    ∀ i ∈ stepIds, Event.disconnect ∉ (stepAction env sp i).1 := by
  intro i hi
  have h7 : i = 1 ∨ i = 2 ∨ i = 3 ∨ i = 4 ∨ i = 5 ∨ i = 6 ∨ i = 7 := by
    simpa [stepIds] using hi
  rcases h7 with h | h | h | h | h | h | h <;> subst h
  · cases ha : env.act 1 with
    | ok b => cases b <;> cases hg : env.openGripperRes <;> simp [stepAction, ha, hg]
    | interrupt => simp [stepAction, ha]
    | error => simp [stepAction, ha]
  all_goals simp [stepAction]

/-- The demo itself never issues a disconnect call; only the top-level
cleanup in main does. -/
theorem demo_no_disconnect (env : Env) (auto : Bool) (cs : Option SpeedDict) :
    Event.disconnect ∉ (demo_plate_pickup env auto cs).2 := by
  have hrun := runSteps_no_disconnect env auto (effective_speeds cs) stepIds
    (stepAction_no_disconnect env (effective_speeds cs))
  cases auto <;> cases hp : env.prompt 0 <;>
    simp only [demo_plate_pickup, demo_body, hp] <;>
    split_ifs <;> simp_all

/-- Claim C7: for every step, if the movement action returns boolean
false without raising, the step runner reports failure and does not call
stop_motion (the trace is exactly the calls the action itself made); if
the action returns true, the runner reports success after the fixed
one-second pause. -/
theorem step_runner_boolean_result (auto : Bool) (promptRes : Outcome Unit)
    (tr : List Event) (hp : auto = true ∨ promptRes = .ok ()) :
    move_with_confirmation auto promptRes (tr, .ok false) = (.ok false, tr) ∧
    (move_with_confirmation auto promptRes (tr, .ok false)).2.count .stopMotion
      = tr.count .stopMotion ∧
    move_with_confirmation auto promptRes (tr, .ok true)
      = (.ok true, tr ++ [.sleep 1]) := by
  rcases hp with h | h
  · subst h; simp [move_with_confirmation, runAction]
  · subst h; cases auto <;> simp [move_with_confirmation, runAction]

/-- Witness for C7 at a concrete input. -/
theorem step_runner_boolean_result_w :
    move_with_confirmation true (.ok ()) ([], .ok false) = (.ok false, []) ∧
    (move_with_confirmation true (.ok ()) ([], .ok false)).2.count .stopMotion
      = ([] : List Event).count .stopMotion ∧
    move_with_confirmation true (.ok ()) ([], .ok true)
      = (.ok true, [] ++ [.sleep 1]) :=
  step_runner_boolean_result true (.ok ()) [] (Or.inl rfl)

/-- Claim C10: in step 1, open_gripper is called exactly when the
robot_home move returned true, and the reported result of the step action
is the result of the move alone, whatever boolean open_gripper returns. -/
theorem step1_gripper_follows_move (env : Env) (sp : SpeedDict) :
    (Event.openGripper ∈ (stepAction env sp 1).1 ↔ env.act 1 = .ok true) ∧
    (∀ b : Bool, env.openGripperRes = .ok b → (stepAction env sp 1).2 = env.act 1) := by
  constructor
  · cases h : env.act 1 with
    | ok b => cases b <;> cases hg : env.openGripperRes <;> simp [stepAction, h, hg]
    | interrupt => simp [stepAction, h]
    | error => simp [stepAction, h]
  · intro b hb
    cases h : env.act 1 with
    | ok b2 => cases b2 <;> simp [stepAction, h, hb]
    | interrupt => simp [stepAction, h, hb]
    | error => simp [stepAction, h, hb]

/-- Witness for C10 at a concrete input. -/
theorem step1_gripper_follows_move_w :
    (Event.openGripper ∈ (stepAction allOkEnv get_speed_config 1).1 ↔
      allOkEnv.act 1 = .ok true) ∧
    (stepAction allOkEnv get_speed_config 1).2 = allOkEnv.act 1 :=
  ⟨(step1_gripper_follows_move allOkEnv get_speed_config).1,
   (step1_gripper_follows_move allOkEnv get_speed_config).2 true rfl⟩

/-- Claim C8: with both mode flags, or both speed shorthand flags, main
exits with a usage error and an empty trace, so no controller object is
ever constructed. -/
theorem conflicting_flags_exit_before_construction (args : Args) (env : Env)
    (h : (args.simulate = true ∧ args.real = true) ∨
      (args.slow = true ∧ args.fast = true)) :
    main args env = (.usageError, []) ∧
    (main args env).2.count .construct = 0 := by
  have hm : main args env = (.usageError, []) := by
    rcases h with ⟨h1, h2⟩ | ⟨h1, h2⟩
    · simp [main, h1, h2]
    · by_cases hs : args.simulate <;> by_cases hr : args.real <;>
        simp [main, h1, h2, hs, hr]
  exact ⟨hm, by rw [hm]; rfl⟩

/-- Witness for C8 at a concrete input. -/
theorem conflicting_flags_exit_before_construction_w :
    main { simulate := true, real := true, auto := false, slow := false,
           fast := false, speed_multiplier := 1 } allOkEnv = (.usageError, []) ∧
    (main { simulate := true, real := true, auto := false, slow := false,
            fast := false, speed_multiplier := 1 } allOkEnv).2.count .construct = 0 :=
  conflicting_flags_exit_before_construction _ allOkEnv (Or.inl ⟨rfl, rfl⟩)

/-- Claim C6: if a required named location is absent from the position
table, the demo returns failure with an empty trace: no movement call is
issued and stop_motion is never called on this path. -/
theorem missing_position_aborts_before_motion (env : Env) (auto : Bool)
    (cs : Option SpeedDict)
    (hstart : auto = true ∨ env.prompt 0 = .ok ())
    (p : String) (hmem : p ∈ required_positions)
    (habs : env.positions.contains p = false) :
    demo_plate_pickup env auto cs = (false, []) ∧
    (demo_plate_pickup env auto cs).2.count .stopMotion = 0 := by
  have hp : p ∉ env.positions := by simpa using habs
  have hnall : ¬ ∀ x ∈ required_positions, x ∈ env.positions :=
    fun hf => hp (hf p hmem)
  have hd : demo_plate_pickup env auto cs = (false, []) := by
    rcases hstart with h | h
    · simp [demo_plate_pickup, demo_body, h, hnall]
    · cases auto <;> simp [demo_plate_pickup, demo_body, h, hnall]
  exact ⟨hd, by rw [hd]; rfl⟩

/-- Witness for C6 at a concrete input. -/
theorem missing_position_aborts_before_motion_w :
    demo_plate_pickup noHomeEnv true none = (false, []) ∧
    (demo_plate_pickup noHomeEnv true none).2.count .stopMotion = 0 :=
  missing_position_aborts_before_motion noHomeEnv true none (Or.inl rfl)
    "robot_home" (by decide) (by decide)

/-- Counterexample to claim C1 as stated: with a position table that has
the three checked names but not the track destination Local_1, the
preflight validation passes, the run issues movement calls (including
the track move to Local_1) and reports success, instead of failing. -/
theorem preflight_skips_local1_check :
    ("Local_1" ∈ noLocal1Env.positions → False) ∧
    (demo_plate_pickup noLocal1Env true none).1 = true ∧
    Event.moveTrack "Local_1" 150 ∈ (demo_plate_pickup noLocal1Env true none).2 := by
  decide

/-- Claim C1 as amended: the preflight validation checks only the names
robot_home, deck_high and deck_low (and that the track is enabled); if
one of those checks fails, the demo returns failure with an empty trace,
before any movement call.  Presence of Local_1 is not checked. -/
theorem preflight_checks_required_positions (env : Env) (auto : Bool)
    (cs : Option SpeedDict)
    (hstart : auto = true ∨ env.prompt 0 = .ok ())
    (hfail : (∃ p ∈ required_positions, p ∉ env.positions)
      ∨ env.trackEnabled = false) :
    demo_plate_pickup env auto cs = (false, []) := by
  rcases hfail with ⟨p, hmem, hp⟩ | h
  · have hnall : ¬ ∀ x ∈ required_positions, x ∈ env.positions :=
      fun hf => hp (hf p hmem)
    rcases hstart with h2 | h2
    · simp [demo_plate_pickup, demo_body, h2, hnall]
    · cases auto <;> simp [demo_plate_pickup, demo_body, h2, hnall]
  · rcases hstart with h2 | h2
    · simp [demo_plate_pickup, demo_body, h2, h]
    · cases auto <;> simp [demo_plate_pickup, demo_body, h2, h]

/-- Witness for the amended C1 at a concrete input. -/
theorem preflight_checks_required_positions_w :
    demo_plate_pickup noTrackEnv true none = (false, []) :=
  preflight_checks_required_positions noTrackEnv true none (Or.inl rfl)
    (Or.inr rfl)

/-- Counterexample to claim C2 as stated: when the controller constructor
itself raises, the cleanup guard (controller in locals()) is false, so
disconnect is invoked zero times on that exit path, not exactly once. -/
theorem construct_fault_skips_disconnect :
    (main simAutoArgs constructFailEnv).1 = .fault ∧
    (main simAutoArgs constructFailEnv).2.count .disconnect = 0 := by
  decide

/-- Claim C2 as amended: on every exit path of main on which the
controller object was successfully constructed — normal completion,
sequence failure, operator interrupt, a fault during a step, a fault
raised by initialize, and an initialize that returns false — disconnect
is invoked exactly once; when construction itself raises there is no
controller and disconnect is not called. -/
theorem disconnect_once_when_constructed (args : Args) (env : Env)
    (hc : env.constructRes = .ok ())
    (hu : (main args env).1 ≠ .usageError) :
    (main args env).2.count .disconnect = 1 := by
  by_cases h1 : (args.simulate && args.real) = true
  · exact absurd (by simp [main, h1]) hu
  by_cases h2 : (!args.simulate && !args.real) = true
  · exact absurd (by simp [main, h1, h2]) hu
  by_cases h3 : (args.slow && args.fast) = true
  · exact absurd (by simp [main, h1, h2, h3]) hu
  have hcount :
      (demo_plate_pickup env args.auto (main_custom_speeds args)).2.count
        Event.disconnect = 0 :=
    List.count_eq_zero.mpr (demo_no_disconnect env args.auto (main_custom_speeds args))
  cases hi : env.initRes with
  | ok b =>
    cases b <;>
      simp [main, h1, h2, h3, hc, hi, List.count_append, List.count_cons,
        List.count_nil, hcount]
  | interrupt =>
    simp [main, h1, h2, h3, hc, hi, List.count_cons, List.count_nil]
  | error =>
    simp [main, h1, h2, h3, hc, hi, List.count_cons, List.count_nil]

/-- Witness for the amended C2 at a concrete input. -/
theorem disconnect_once_when_constructed_w :
    (main simAutoArgs allOkEnv).2.count .disconnect = 1 :=
  disconnect_once_when_constructed simAutoArgs allOkEnv rfl (by decide)

/-- Claim C3: with a test double succeeding on steps 1-3 and reporting
boolean failure on step 4, the run performs the movements of steps 1-3
once each, invokes the step 4 movement once, never invokes the movements
of steps 5-7, reports overall failure, and disconnects exactly once. -/
theorem step4_failure_stops_sequence (env : Env)
    (hc : env.constructRes = .ok ()) (hi : env.initRes = .ok true)
    (hpa : "robot_home" ∈ env.positions) (hpb : "deck_high" ∈ env.positions)
    (hpc : "deck_low" ∈ env.positions) (ht : env.trackEnabled = true)
    (h1 : env.act 1 = .ok true) (h2 : env.act 2 = .ok true)
    (h3 : env.act 3 = .ok true) (h4 : env.act 4 = .ok false)
    (g : Bool) (hg : env.openGripperRes = .ok g) :
    main simAutoArgs env =
      (.ran false,
       [.construct, .initCall, .moveNamed "robot_home" 20, .openGripper, .sleep 1,
        .moveTrack "Local_1" 150, .sleep 1, .moveNamed "deck_high" 15, .sleep 1,
        .moveNamed "deck_low" 8, .disconnect]) ∧
    (main simAutoArgs env).2.count (.moveNamed "robot_home" 20) = 1 ∧
    (main simAutoArgs env).2.count (.moveTrack "Local_1" 150) = 1 ∧
    (main simAutoArgs env).2.count (.moveNamed "deck_high" 15) = 1 ∧
    (main simAutoArgs env).2.count (.moveNamed "deck_low" 8) = 1 ∧
    (main simAutoArgs env).2.count .closeGripper = 0 ∧
    (main simAutoArgs env).2.count (.moveNamed "deck_high" 10) = 0 ∧
    (main simAutoArgs env).2.count (.moveNamed "robot_home" 15) = 0 ∧
    (main simAutoArgs env).2.count .disconnect = 1 := by
  have hmain : main simAutoArgs env =
      (.ran false,
       [.construct, .initCall, .moveNamed "robot_home" 20, .openGripper, .sleep 1,
        .moveTrack "Local_1" 150, .sleep 1, .moveNamed "deck_high" 15, .sleep 1,
        .moveNamed "deck_low" 8, .disconnect]) := by
    simp [main, simAutoArgs, main_custom_speeds, resolved_multiplier,
      demo_plate_pickup, demo_body, effective_speeds, dictFind, get_speed_config,
      required_positions, stepIds, runSteps, stepAction, move_with_confirmation,
      runAction, List.find?, hc, hi, hpa, hpb, hpc, ht, h1, h2, h3, h4, hg]
  refine ⟨hmain, ?_, ?_, ?_, ?_, ?_, ?_, ?_, ?_⟩ <;> rw [hmain] <;> decide

/-- Witness for C3 at a concrete input. -/
theorem step4_failure_stops_sequence_w :
    main simAutoArgs step4FailEnv =
      (.ran false,
       [.construct, .initCall, .moveNamed "robot_home" 20, .openGripper, .sleep 1,
        .moveTrack "Local_1" 150, .sleep 1, .moveNamed "deck_high" 15, .sleep 1,
        .moveNamed "deck_low" 8, .disconnect]) ∧
    (main simAutoArgs step4FailEnv).2.count (.moveNamed "robot_home" 20) = 1 ∧
    (main simAutoArgs step4FailEnv).2.count (.moveTrack "Local_1" 150) = 1 ∧
    (main simAutoArgs step4FailEnv).2.count (.moveNamed "deck_high" 15) = 1 ∧
    (main simAutoArgs step4FailEnv).2.count (.moveNamed "deck_low" 8) = 1 ∧
    (main simAutoArgs step4FailEnv).2.count .closeGripper = 0 ∧
    (main simAutoArgs step4FailEnv).2.count (.moveNamed "deck_high" 10) = 0 ∧
    (main simAutoArgs step4FailEnv).2.count (.moveNamed "robot_home" 15) = 0 ∧
    (main simAutoArgs step4FailEnv).2.count .disconnect = 1 :=
  step4_failure_stops_sequence step4FailEnv rfl rfl (by decide) (by decide)
    (by decide) rfl (by decide) (by decide) (by decide) (by decide) true rfl

/-- The multiplier resolved for `--fast`. -/
theorem resolved_fast_eq : resolved_multiplier simAutoFastArgs = 2 := by decide

/-- The default table with every present speed doubled. -/
def fastSpeeds : SpeedDict :=
  [("robot_home",
     { joint_speed := some 40, description := "Robot joint homing speed with gripper open" }),
   ("move_to_local_1",
     { track_speed := some 300, description := "Linear track movement to Local_1 position" }),
   ("deck_high",
     { joint_speed := some 30, description := "Joint movement to deck high position" }),
   ("deck_low",
     { joint_speed := some 16, description := "Slow descent to plate pickup level" }),
   ("plate_pickup",
     { description := "Close gripper to pick up well plate" }),
   ("deck_high_return",
     { joint_speed := some 20, description := "Slow lift to safe height with plate" }),
   ("final_home",
     { joint_speed := some 30, description := "Return to home position with plate" })]

/-- Scaling the default table by 2 yields the doubled table. -/
theorem scaleSpeeds_fast : scaleSpeeds 2 get_speed_config = fastSpeeds := by
  norm_num [scaleSpeeds, scaleConfig, get_speed_config, fastSpeeds]

/-- The custom dictionary main builds for `--fast`. -/
theorem main_custom_fast : main_custom_speeds simAutoFastArgs = some fastSpeeds := by
  simp only [main_custom_speeds, resolved_fast_eq]
  rw [if_pos (by norm_num : (2 : ℚ) ≠ 1), scaleSpeeds_fast]

/-- Updating the default table with the doubled table replaces it. -/
theorem dictUpdate_fast : dictUpdate get_speed_config fastSpeeds = fastSpeeds := by
  decide

/-- The effective speed table of a `--fast` run. -/
theorem effective_fast :
    effective_speeds (main_custom_speeds simAutoFastArgs) = fastSpeeds := by
  rw [main_custom_fast]
  decide

/-- Claim C4: for every run configuration, each entry of the effective
speed table equals the corresponding default entry with both optional
speeds scaled by the resolved multiplier (steps with no speed entry are
unaffected, since mapping over a missing value does nothing); and
end-to-end with `--auto --fast` and a fully succeeding double, all 7
steps run in order with each default speed doubled and the run reports
success. -/
theorem speed_multiplier_scaling :
    (∀ (args : Args) (step : String) (cfg : StepSpeed),
        (step, cfg) ∈ get_speed_config →
        dictFind (effective_speeds (main_custom_speeds args)) step
          = scaleConfig (resolved_multiplier args) cfg) ∧
    (∀ (env : Env) (g : Bool),
        "robot_home" ∈ env.positions → "deck_high" ∈ env.positions →
        "deck_low" ∈ env.positions → env.trackEnabled = true →
        env.constructRes = .ok () → env.initRes = .ok true →
        (∀ i, 1 ≤ i → i ≤ 7 → env.act i = .ok true) →
        env.openGripperRes = .ok g →
        main simAutoFastArgs env =
          (.ran true,
           [.construct, .initCall, .moveNamed "robot_home" 40, .openGripper,
            .sleep 1, .moveTrack "Local_1" 300, .sleep 1,
            .moveNamed "deck_high" 30, .sleep 1, .moveNamed "deck_low" 16,
            .sleep 1, .closeGripper, .sleep 1, .moveNamed "deck_high" 20,
            .sleep 1, .moveNamed "robot_home" 30, .sleep 1, .disconnect])) := by
  constructor
  · intro args step cfg hmem
    by_cases hm : resolved_multiplier args = 1
    · have hcs : main_custom_speeds args = none := by
        simp [main_custom_speeds, hm]
      rw [hcs]
      simp [get_speed_config] at hmem
      rcases hmem with ⟨hs, hcfg⟩ | ⟨hs, hcfg⟩ | ⟨hs, hcfg⟩ | ⟨hs, hcfg⟩ |
        ⟨hs, hcfg⟩ | ⟨hs, hcfg⟩ | ⟨hs, hcfg⟩ <;> subst hs <;> subst hcfg <;>
        simp [effective_speeds, dictFind, get_speed_config, List.find?,
          scaleConfig, hm]
    · have hcs : main_custom_speeds args =
          some (scaleSpeeds (resolved_multiplier args) get_speed_config) := by
        simp [main_custom_speeds, hm]
      rw [hcs]
      simp [get_speed_config] at hmem
      rcases hmem with ⟨hs, hcfg⟩ | ⟨hs, hcfg⟩ | ⟨hs, hcfg⟩ | ⟨hs, hcfg⟩ |
        ⟨hs, hcfg⟩ | ⟨hs, hcfg⟩ | ⟨hs, hcfg⟩ <;> subst hs <;> subst hcfg <;>
        simp [effective_speeds, dictUpdate, dictFind, scaleSpeeds,
          get_speed_config, List.find?, List.filter, List.any, List.map,
          scaleConfig]
  · intro env g hpa hpb hpc ht hc hi hact hg
    have h1 := hact 1 (by norm_num) (by norm_num)
    have h2 := hact 2 (by norm_num) (by norm_num)
    have h3 := hact 3 (by norm_num) (by norm_num)
    have h4 := hact 4 (by norm_num) (by norm_num)
    have h5 := hact 5 (by norm_num) (by norm_num)
    have h6 := hact 6 (by norm_num) (by norm_num)
    have h7 := hact 7 (by norm_num) (by norm_num)
    have hb1 : (simAutoFastArgs.simulate && simAutoFastArgs.real) = false := by decide
    have hb2 : (!simAutoFastArgs.simulate && !simAutoFastArgs.real) = false := by decide
    have hb3 : (simAutoFastArgs.slow && simAutoFastArgs.fast) = false := by decide
    have hb4 : simAutoFastArgs.auto = true := by decide
    have hdemo : demo_plate_pickup env true (some fastSpeeds) =
        (true,
         [.moveNamed "robot_home" 40, .openGripper, .sleep 1,
          .moveTrack "Local_1" 300, .sleep 1, .moveNamed "deck_high" 30,
          .sleep 1, .moveNamed "deck_low" 16, .sleep 1, .closeGripper,
          .sleep 1, .moveNamed "deck_high" 20, .sleep 1,
          .moveNamed "robot_home" 30, .sleep 1]) := by
      simp [demo_plate_pickup, demo_body, effective_speeds, dictUpdate_fast,
        required_positions, hpa, hpb, hpc, ht, stepIds, runSteps, stepAction,
        move_with_confirmation, runAction, dictFind, fastSpeeds, List.find?,
        h1, h2, h3, h4, h5, h6, h7, hg]
    simp [main, hb1, hb2, hb3, hb4, hc, hi, main_custom_fast, hdemo]

/-- Witness for C4 at a concrete input. -/
theorem speed_multiplier_scaling_w :
    dictFind (effective_speeds (main_custom_speeds simAutoFastArgs)) "robot_home"
      = scaleConfig (resolved_multiplier simAutoFastArgs)
          { joint_speed := some 20,
            description := "Robot joint homing speed with gripper open" } ∧
    main simAutoFastArgs allOkEnv =
      (.ran true,
       [.construct, .initCall, .moveNamed "robot_home" 40, .openGripper,
        .sleep 1, .moveTrack "Local_1" 300, .sleep 1,
        .moveNamed "deck_high" 30, .sleep 1, .moveNamed "deck_low" 16,
        .sleep 1, .closeGripper, .sleep 1, .moveNamed "deck_high" 20,
        .sleep 1, .moveNamed "robot_home" 30, .sleep 1, .disconnect]) :=
  ⟨speed_multiplier_scaling.1 simAutoFastArgs "robot_home" _ (by decide),
   speed_multiplier_scaling.2 allOkEnv true (by decide) (by decide) (by decide)
     rfl rfl rfl (fun i _ _ => rfl) rfl⟩

/-- Claim C5: operator cancellation at the confirmation prompt of any
step k causes exactly one stop_motion call; the trace is exactly the
traces of the completed earlier steps followed by stop_motion, so the
movement action of step k is never executed, the run reports failure,
and no subsequent step runs. -/
theorem prompt_interrupt_stops_run (env : Env) (cs : Option SpeedDict) (k : Nat)
    (hk : k ∈ stepIds)
    (hpa : "robot_home" ∈ env.positions) (hpb : "deck_high" ∈ env.positions)
    (hpc : "deck_low" ∈ env.positions) (ht : env.trackEnabled = true)
    (hprompt : ∀ j, j < k → env.prompt j = .ok ())
    (hact : ∀ j, 1 ≤ j → j < k → env.act j = .ok true)
    (g : Bool) (hg : env.openGripperRes = .ok g)
    (hint : env.prompt k = .interrupt) :
    demo_plate_pickup env false cs =
      (false, stepsBefore env (effective_speeds cs) k ++ [.stopMotion]) ∧
    (demo_plate_pickup env false cs).2.count .stopMotion = 1 := by
  have h7 : k = 1 ∨ k = 2 ∨ k = 3 ∨ k = 4 ∨ k = 5 ∨ k = 6 ∨ k = 7 := by
    simpa [stepIds] using hk
  rcases h7 with h | h | h | h | h | h | h <;> subst h <;>
    refine ⟨?_, ?_⟩ <;>
    simp [demo_plate_pickup, demo_body, runSteps, stepIds, stepAction,
      move_with_confirmation, runAction, stepsBefore, stepTrace,
      required_positions, hpa, hpb, hpc, ht, hprompt, hact, hint, hg,
      List.count_append, List.count_cons]

/-- Witness for C5 at a concrete input. -/
theorem prompt_interrupt_stops_run_w :
    demo_plate_pickup interruptAtStep1Env false none =
      (false,
       stepsBefore interruptAtStep1Env (effective_speeds none) 1 ++ [.stopMotion]) ∧
    (demo_plate_pickup interruptAtStep1Env false none).2.count .stopMotion = 1 :=
  prompt_interrupt_stops_run interruptAtStep1Env none 1 (by decide)
    (by decide) (by decide) (by decide) rfl
    (fun j hj => by
      have hj0 : j = 0 := by omega
      subst hj0; rfl)
    (fun j hj1 hj2 => absurd (lt_of_le_of_lt hj1 hj2) (lt_irrefl 1))
    true rfl (by decide)

/-- Claim C9: in the default table and in the effective table of every
run configuration, each step entry carries at most one of joint_speed
and track_speed, and the gripper-close entry plate_pickup carries
neither. -/
theorem speed_entries_exclusive :
    (∀ (step : String) (cfg : StepSpeed), (step, cfg) ∈ get_speed_config →
        (cfg.joint_speed = none ∨ cfg.track_speed = none) ∧
        (step = "plate_pickup" → cfg.joint_speed = none ∧ cfg.track_speed = none)) ∧
    (∀ (args : Args) (step : String) (cfg : StepSpeed),
        (step, cfg) ∈ effective_speeds (main_custom_speeds args) →
        (cfg.joint_speed = none ∨ cfg.track_speed = none) ∧
        (step = "plate_pickup" → cfg.joint_speed = none ∧ cfg.track_speed = none)) := by
  constructor
  · intro step cfg hmem
    simp [get_speed_config] at hmem
    rcases hmem with ⟨hs, hcfg⟩ | ⟨hs, hcfg⟩ | ⟨hs, hcfg⟩ | ⟨hs, hcfg⟩ |
      ⟨hs, hcfg⟩ | ⟨hs, hcfg⟩ | ⟨hs, hcfg⟩ <;> subst hs <;> subst hcfg <;>
      simp
  · intro args step cfg hmem
    by_cases hm : resolved_multiplier args = 1
    · have hcs : main_custom_speeds args = none := by
        simp [main_custom_speeds, hm]
      rw [hcs] at hmem
      simp [effective_speeds, get_speed_config] at hmem
      rcases hmem with ⟨hs, hcfg⟩ | ⟨hs, hcfg⟩ | ⟨hs, hcfg⟩ | ⟨hs, hcfg⟩ |
        ⟨hs, hcfg⟩ | ⟨hs, hcfg⟩ | ⟨hs, hcfg⟩ <;> subst hs <;> subst hcfg <;>
        simp
    · have hcs : main_custom_speeds args =
          some (scaleSpeeds (resolved_multiplier args) get_speed_config) := by
        simp [main_custom_speeds, hm]
      rw [hcs] at hmem
      simp [effective_speeds, dictUpdate, scaleSpeeds, get_speed_config,
        List.find?, List.filter, List.any, List.map, scaleConfig] at hmem
      rcases hmem with ⟨hs, hcfg⟩ | ⟨hs, hcfg⟩ | ⟨hs, hcfg⟩ | ⟨hs, hcfg⟩ |
        ⟨hs, hcfg⟩ | ⟨hs, hcfg⟩ | ⟨hs, hcfg⟩ <;> subst hs <;> subst hcfg <;>
      simp

/-- Witness for C9 at a concrete input. -/
theorem speed_entries_exclusive_w :
    (({ track_speed := some 150,
        description := "Linear track movement to Local_1 position" } : StepSpeed).joint_speed
        = none ∨
     ({ track_speed := some 150,
        description := "Linear track movement to Local_1 position" } : StepSpeed).track_speed
        = none) ∧
    ("move_to_local_1" = "plate_pickup" →
      ({ track_speed := some 150,
         description := "Linear track movement to Local_1 position" } : StepSpeed).joint_speed
         = none ∧
      ({ track_speed := some 150,
         description := "Linear track movement to Local_1 position" } : StepSpeed).track_speed
         = none) :=
  speed_entries_exclusive.1 "move_to_local_1"
    { track_speed := some 150,
      description := "Linear track movement to Local_1 position" } (by decide)

end PlateDemo
